import Mathlib

/-!
Verification of the MediOps healthcare surge-prediction backend.

This file shallowly embeds the core pipeline of the repository in Lean 4:
JavaScript numbers are modelled as exact rationals (`ℚ`), fallible
operations return `Except`, database collections are lists threaded through
each function, and external services (weather/AQI providers, the Gemini
reasoning service) are supplied as explicit oracle inputs.  Each definition
is a direct transcription of the corresponding JavaScript function.
-/

set_option maxRecDepth 8000

namespace MediOps

/-! ## JavaScript number primitives -/

/-- `Math.round` on a rational: round half towards positive infinity. -/
def jsRound (q : ℚ) : ℚ := (⌊q + 1/2⌋ : ℤ)

/-- `Math.ceil` on a rational. -/
def jsCeil (q : ℚ) : ℚ := (⌈q⌉ : ℤ)

/-- JavaScript `a || b` on an optional number: `undefined`, and the falsy
value `0`, fall through to the default. -/
def jsOrQ (v : Option ℚ) (d : ℚ) : ℚ :=
  match v with
  | none => d
  | some x => if x = 0 then d else x

/-- JavaScript `a || b` on an optional string: `undefined` and the falsy
value `""` fall through to the default. -/
def jsOrS (v : Option String) (d : String) : String :=
  match v with
  | none => d
  | some x => if x = "" then d else x

/-- Truthiness of an optional number (`undefined`, `0` are falsy). -/
def jsTruthyQ (v : Option ℚ) : Bool :=
  match v with
  | none => false
  | some x => x != 0

/-- Truthiness of an optional integer (`undefined`, `0` are falsy). -/
def jsTruthyI (v : Option ℤ) : Bool :=
  match v with
  | none => false
  | some x => x != 0

/-- `msg?.includes(sub)` — substring test on an optional string,
`undefined` being falsy. -/
def jsIncludes (m : Option String) (sub : String) : Bool :=
  match m with
  | none => false
  | some s => decide (sub.toList <:+: s.toList)

/-- `[...new Set(xs)]`: deduplicate keeping the first occurrence of each
element, preserving insertion order. -/
def jsSetDedup : List String → List String
  | [] => []
  | x :: xs => x :: jsSetDedup (xs.filter (· ≠ x))
termination_by l => l.length
decreasing_by
  simp only [gt_iff_lt, List.length_cons]
  exact Nat.lt_succ_of_le (List.length_filter_le _ _)

/-- `[...new Set([...xs, ...ys])]`: JS set union of two arrays. -/
def jsSetUnion (xs ys : List String) : List String := jsSetDedup (xs ++ ys)

/-- ASCII whitespace, as used by `trim` and the regex class `\s`. -/
def jsIsWhitespace (c : Char) : Bool :=
  c = ' ' || c = '\t' || c = '\n' || c = '\r' || c = '\x0b' || c = '\x0c'

/-- JavaScript `String.prototype.trim` (ASCII whitespace). -/
def jsTrim (s : String) : String :=
  String.mk (((s.toList.dropWhile jsIsWhitespace).reverse.dropWhile
    jsIsWhitespace).reverse)

/-- Split a character list on a separator character. -/
def splitOnCharAux (sep : Char) : List Char → List Char → List (List Char)
  | [], acc => [acc.reverse]
  | c :: rest, acc =>
    if c = sep then acc.reverse :: splitOnCharAux sep rest []
    else splitOnCharAux sep rest (c :: acc)

/-- JavaScript `str.split(sep)` for a one-character separator. -/
def jsSplit (s : String) (sep : Char) : List String :=
  (splitOnCharAux sep s.toList []).map String.mk

/-- JavaScript `arr.join(sep)`. -/
def joinWith (sep : String) : List String → String
  | [] => ""
  | [x] => x
  | x :: xs => x ++ sep ++ joinWith sep xs

/-! ## Risk Scorer (`predictionService.js`, `calculateSurgeProbability`) -/

/-- The flat feature record assembled by `generatePrediction`
(numeric/environmental fields only; `city` and `date` are carried
separately where needed). -/
structure FeatureRecord where
  aqi : ℚ
  pm25 : ℚ
  pm10 : ℚ
  temperature : ℚ
  humidity : ℚ
  windSpeed : ℚ
  precipitation : ℚ
  admissionsLast7dAvg : ℚ
  baselineAdmissions : ℚ
  isFestival : Bool
  festivalMultiplier : ℚ
  deriving Repr, DecidableEq

/-- `calculateSurgeProbability` from `predictionService.js`: base 20, tiered
AQI bonus, weather bonuses, admissions-trend bonus, festival bonus, clamped
by `Math.min(100, Math.max(0, p))`. -/
def calculateSurgeProbability (f : FeatureRecord) : ℚ :=
  let p : ℚ := 20
  let p := if f.aqi > 150 then p + 25 else if f.aqi > 100 then p + 15
           else if f.aqi > 50 then p + 5 else p
  let p := if f.temperature > 35 then p + 15 else p
  let p := if f.humidity > 80 then p + 10 else p
  let p := if f.precipitation > 5 then p + 5 else p
  let p := if f.admissionsLast7dAvg > f.baselineAdmissions * (6/5) then p + 20 else p
  let p := if f.isFestival then p + f.festivalMultiplier * 10 else p
  min 100 (max 0 p)

/-- Reference risk score written exactly as the specification describes it:
base score 20 plus independent additive contributions, the sum clamped to
`[0, 100]`. -/
def surgeScoreSpec (f : FeatureRecord) : ℚ :=
  let tier : ℚ := if f.aqi > 150 then 25 else if f.aqi > 100 then 15
                  else if f.aqi > 50 then 5 else 0
  let heat : ℚ := if f.temperature > 35 then 15 else 0
  let humid : ℚ := if f.humidity > 80 then 10 else 0
  let rain : ℚ := if f.precipitation > 5 then 5 else 0
  let adm : ℚ := if f.admissionsLast7dAvg > f.baselineAdmissions * (6/5) then 20 else 0
  let fest : ℚ := if f.isFestival then f.festivalMultiplier * 10 else 0
  min 100 (max 0 (20 + tier + heat + humid + rain + adm + fest))

/-! ## Resilient Call Executor (`geminiRetry.js`) -/

/-- One entry of an error's `errorDetails` array (Google RPC error payload);
`retryDelay` is a string such as `"51s"` when present. -/
structure RetryInfoDetail where
  typ : String
  retryDelay : Option String
  deriving Repr, DecidableEq

/-- A JavaScript error value as inspected by `withRetry`: an optional
numeric `status`, an optional `message` string and optional
`errorDetails`. -/
structure JsError where
  status : Option Int
  message : Option String
  errorDetails : Option (List RetryInfoDetail)
  deriving Repr, DecidableEq

/-- Leading-digit accumulation used by `jsParseInt`. -/
def digitsToNat (ds : List Char) : Option Nat :=
  if ds = [] then none
  else some (ds.foldl (fun a c => a * 10 + (c.toNat - 48)) 0)

/-- JavaScript `parseInt` on a string: optional leading whitespace and sign,
then leading decimal digits; `none` models the `NaN` result. -/
def jsParseInt (s : String) : Option Int :=
  let cs := s.toList.dropWhile (fun c => c = ' ' || c = '\t')
  match cs with
  | '-' :: rest => (digitsToNat (rest.takeWhile Char.isDigit)).map (fun n => -(n : ℤ))
  | '+' :: rest => (digitsToNat (rest.takeWhile Char.isDigit)).map (fun n => (n : ℤ))
  | _ => (digitsToNat (cs.takeWhile Char.isDigit)).map (fun n => (n : ℤ))

/-- `str.replace('s', '')`: drop the first occurrence of a character. -/
def removeFirstChar : List Char → Char → List Char
  | [], _ => []
  | c :: cs, t => if c = t then cs else c :: removeFirstChar cs t

/-- `getRetryDelay` from `geminiRetry.js`: scan `errorDetails` for the first
`google.rpc.RetryInfo` entry carrying a `retryDelay`, parse `"51s"` into
milliseconds.  An unparseable delay yields `NaN` in JavaScript, which every
use site treats exactly like the absent (`null`) value, so it is modelled
as `none`. -/
def getRetryDelay (e : JsError) : Option Int :=
  match e.errorDetails with
  | none => none
  | some ds =>
    match ds.find? (fun d =>
        d.typ == "type.googleapis.com/google.rpc.RetryInfo" && d.retryDelay.isSome) with
    | none => none
    | some d =>
      match d.retryDelay with
      | none => none
      | some str =>
        (jsParseInt ⟨removeFirstChar str.toList 's'⟩).map (fun n => n * 1000)

/-- Rate-limit classification from `withRetry`: status 429 or a message
mentioning 429/quota/rate limit/Resource exhausted. -/
def isRateLimit (e : JsError) : Bool :=
  e.status == some 429 ||
  jsIncludes e.message "429" ||
  jsIncludes e.message "quota" ||
  jsIncludes e.message "rate limit" ||
  jsIncludes e.message "Resource exhausted"

/-- Retryable-failure classification from `withRetry`: rate limits, 5xx
statuses, timeouts and transport (`fetch`) errors. -/
def isRetryable (e : JsError) : Bool :=
  isRateLimit e ||
  (match e.status with
   | some s => decide (500 ≤ s) && decide (s < 600)
   | none => false) ||
  jsIncludes e.message "timeout" ||
  jsIncludes e.message "fetch"

/-- The options object of `withRetry`, with the source's default values. -/
structure RetryOptions where
  maxRetries : Nat := 4
  initialDelay : ℚ := 2000
  maxDelay : ℚ := 60000
  backoffMultiplier : ℚ := 2
  deriving Repr, DecidableEq

/-- The delay slept after a retryable failure, exactly as computed inside
`withRetry`'s catch block: a truthy provider retry hint wins; otherwise the
current exponential delay, multiplied by 1.5 for rate limits; then the
random jitter is added and the result is capped at `maxDelay`. -/
def nextRetryDelay (e : JsError) (delay jitter maxDelay : ℚ) : ℚ :=
  let hint := getRetryDelay e
  let rd : ℚ :=
    if isRateLimit e && !jsTruthyI hint then delay * (3/2)
    else if !jsTruthyI hint then delay
    else ((hint.getD 0 : ℤ) : ℚ)
  min (rd + jitter) maxDelay

/-- The observable outcome of one `withRetry` run: the returned value or the
re-raised error, the number of times the closure was invoked, and the
sequence of sleeps performed between attempts. -/
structure RetryTrace (α : Type) where
  result : Except JsError α
  callsMade : Nat
  sleeps : List ℚ
  deriving Repr

/-- The attempt loop of `withRetry`.  `calls n` is the outcome of the
`n`-th invocation of the closure and `jitter n` the random jitter drawn
after the `n`-th failure; `remaining` counts attempts still allowed after
the current one (so `remaining = 0` means `attempt >= maxRetries`). -/
def withRetryGo {α : Type} (calls : Nat → Except JsError α) (jitter : Nat → ℚ)
    (o : RetryOptions) : Nat → Nat → ℚ → RetryTrace α
  | 0, attempt, _ =>
    match calls attempt with
    | .ok v => ⟨.ok v, attempt + 1, []⟩
    | .error e => ⟨.error e, attempt + 1, []⟩
  | remaining + 1, attempt, delay =>
    match calls attempt with
    | .ok v => ⟨.ok v, attempt + 1, []⟩
    | .error e =>
      if isRetryable e then
        let rd := nextRetryDelay e delay (jitter attempt) o.maxDelay
        let rest := withRetryGo calls jitter o remaining (attempt + 1)
          (min (delay * o.backoffMultiplier) o.maxDelay)
        ⟨rest.result, rest.callsMade, rd :: rest.sleeps⟩
      else ⟨.error e, attempt + 1, []⟩

/-- `withRetry` from `geminiRetry.js`, as a deterministic function of the
closure's outcome sequence and the drawn jitters. -/
def withRetry {α : Type} (calls : Nat → Except JsError α) (jitter : Nat → ℚ)
    (o : RetryOptions) : RetryTrace α :=
  withRetryGo calls jitter o o.maxRetries 0 o.initialDelay

/-- The "Delhi" scenario features of the specification: pollutant index 180,
temperature 22°, humidity 40%, no precipitation bonus, baseline admissions
met, no festival. -/
def delhiScenarioFeatures : FeatureRecord :=
  { aqi := 180, pm25 := 108, pm10 := 144, temperature := 22, humidity := 40
    windSpeed := 10, precipitation := 0, admissionsLast7dAvg := 50
    baselineAdmissions := 50, isFestival := false, festivalMultiplier := 0 }

/-! ## Reading Store and Freshness Cache (`dataService.js`) -/

/-- A stored `AqiReading` document (the opaque `raw` audit snapshot is
omitted; no logic of the pipeline reads it). -/
structure AqiReadingT where
  location : String
  timestamp : ℚ
  aqi : ℚ
  pm25 : ℚ
  pm10 : ℚ
  source : String
  deriving Repr, DecidableEq

/-- A stored `WeatherReading` document (again without the `raw` audit
snapshot). -/
structure WeatherReadingT where
  location : String
  timestamp : ℚ
  temperature : ℚ
  humidity : ℚ
  windSpeed : ℚ
  precipitation : ℚ
  deriving Repr, DecidableEq

/-- `findOne(query).sort({ timestamp: -1 })`: the matching record with the
largest timestamp (first such record on ties). -/
def latestBy {β : Type} (ts : β → ℚ) (matcher : β → Bool) (store : List β) :
    Option β :=
  store.foldl (fun best r =>
    if matcher r then
      match best with
      | none => some r
      | some b => if ts b < ts r then some r else some b
    else best) none

/-- `getLatestAqi` from `dataService.js`. -/
def getLatestAqi (store : List AqiReadingT) (cityName : String) :
    Option AqiReadingT :=
  if cityName = "" then none
  else latestBy (·.timestamp) (fun r => r.location == cityName) store

/-- `getLatestWeather` from `dataService.js`. -/
def getLatestWeather (store : List WeatherReadingT) (cityName : String) :
    Option WeatherReadingT :=
  if cityName = "" then none
  else latestBy (·.timestamp) (fun r => r.location == cityName) store

/-- The coordinate record produced by `getCityCoordinates`. -/
structure CityCoords where
  city : String
  state : String
  country : String
  lat : Option ℚ
  lon : Option ℚ
  deriving Repr, DecidableEq

/-- `getCityStateMapping`: the hard-coded city→state/coordinate table for
ten Indian cities. -/
def getCityStateMapping (cityName : String) : Option CityCoords :=
  match jsTrim cityName with
  | "Delhi" => some ⟨"Delhi", "Delhi", "India", some (286139/10000), some (772090/10000)⟩
  | "Mumbai" => some ⟨"Mumbai", "Maharashtra", "India", some (190760/10000), some (728777/10000)⟩
  | "Bangalore" => some ⟨"Bangalore", "Karnataka", "India", some (129716/10000), some (775946/10000)⟩
  | "Kolkata" => some ⟨"Kolkata", "West Bengal", "India", some (225726/10000), some (883639/10000)⟩
  | "Chennai" => some ⟨"Chennai", "Tamil Nadu", "India", some (130827/10000), some (802707/10000)⟩
  | "Hyderabad" => some ⟨"Hyderabad", "Telangana", "India", some (173850/10000), some (784867/10000)⟩
  | "Pune" => some ⟨"Pune", "Maharashtra", "India", some (185204/10000), some (738567/10000)⟩
  | "Ahmedabad" => some ⟨"Ahmedabad", "Gujarat", "India", some (230225/10000), some (725714/10000)⟩
  | "Jaipur" => some ⟨"Jaipur", "Rajasthan", "India", some (269124/10000), some (757873/10000)⟩
  | "Lucknow" => some ⟨"Lucknow", "Uttar Pradesh", "India", some (268467/10000), some (809462/10000)⟩
  | _ => none

/-- JavaScript `parseFloat`: optional leading whitespace and sign, leading
decimal digits with an optional fraction; `none` models `NaN`. -/
def jsParseFloat (s : String) : Option ℚ :=
  let cs := s.toList.dropWhile (fun c => c = ' ' || c = '\t')
  let signAndRest : ℚ × List Char :=
    match cs with
    | '-' :: rest => (-1, rest)
    | '+' :: rest => (1, rest)
    | _ => (1, cs)
  let intPart := signAndRest.2.takeWhile Char.isDigit
  let afterInt := signAndRest.2.drop intPart.length
  let fracPart : List Char :=
    match afterInt with
    | '.' :: r => r.takeWhile Char.isDigit
    | _ => []
  if intPart = [] && fracPart = [] then none
  else
    some (signAndRest.1 *
      ((intPart.foldl (fun a c => a * 10 + ((c.toNat - 48 : ℕ) : ℚ)) 0) +
        fracPart.foldr (fun c a => (((c.toNat - 48 : ℕ) : ℚ) + a) / 10) 0))

/-- `getCityCoordinates` from `dataService.js`: the mapping table, then the
`"City,lat,lon"` / `"City,State[,Country]"` comma formats, then the plain
default. -/
def getCityCoordinates (cityName state country : String) : CityCoords :=
  match getCityStateMapping cityName with
  | some mapped => mapped
  | none =>
    if cityName.toList.contains ',' then
      let parts := (jsSplit cityName ',').map jsTrim
      if parts.length ≥ 3 && (jsParseFloat (parts.getD 1 "")).isSome then
        { city := parts.getD 0 "", state := state, country := country
          lat := jsParseFloat (parts.getD 1 ""), lon := jsParseFloat (parts.getD 2 "") }
      else if parts.length ≥ 2 then
        { city := parts.getD 0 "", state := jsOrS (parts.get? 1) state
          country := jsOrS (parts.get? 2) country, lat := none, lon := none }
      else
        { city := cityName, state := state, country := country, lat := none, lon := none }
    else
      { city := cityName, state := state, country := country, lat := none, lon := none }

/-- The `data.current.pollution` object of an Air Visual response. -/
structure PollutionData where
  aqius : Option ℚ
  aqicn : Option ℚ
  pm25 : Option ℚ
  pm10 : Option ℚ
  deriving Repr, DecidableEq

/-- One HTTP response from the Air Visual provider as inspected by
`fetchAndStoreAqi`: `response.ok`, whether `responseData.status` equals
`'success'`, and the optional pollution payload. -/
structure AqiFetchResponse where
  ok : Bool
  statusSuccess : Bool
  pollution : Option PollutionData
  deriving Repr, DecidableEq

/-- The environment of one `fetchAndStoreAqi` invocation: whether
`AIR_VISUAL_API_KEY` is configured (the server entry point installs a
default, so deployments always have it), and the provider's response to the
`n`-th HTTP fetch of this invocation. -/
structure AqiEnv where
  airVisualKeyConfigured : Bool
  responses : Nat → AqiFetchResponse

/-- The endpoint-strategy logic of `fetchAndStoreAqi`: city endpoint when
state and country are known (falling back to `nearest_station` when it
fails and coordinates exist), `nearest_station` for bare coordinates, and a
last-resort city query otherwise.  Returns the response finally inspected
and the number of HTTP fetches issued. -/
def airVisualRequest (env : AqiEnv) (coords : CityCoords) :
    AqiFetchResponse × Nat :=
  if coords.state ≠ "" && coords.country ≠ "" then
    let r0 := env.responses 0
    if !r0.ok && jsTruthyQ coords.lat && jsTruthyQ coords.lon then
      (env.responses 1, 2)
    else (r0, 1)
  else if jsTruthyQ coords.lat && jsTruthyQ coords.lon then (env.responses 0, 1)
  else (env.responses 0, 1)

/-- `fetchAndStoreAqi` from `dataService.js`, as a function of the provider
environment, the current time, and the AQI store.  Returns the result, the
updated store, and the number of external provider calls issued. -/
def fetchAndStoreAqi (env : AqiEnv) (now : ℚ) (store : List AqiReadingT)
    (cityName state country : String) (forceFetch : Bool) :
    Except String AqiReadingT × List AqiReadingT × Nat :=
  if cityName = "" then (.error "City name is required", store, 0)
  else
    let location := cityName
    let cached : Option AqiReadingT :=
      if !forceFetch then
        match latestBy (·.timestamp) (fun r => r.location == location) store with
        | some r => if (now - r.timestamp) / 3600000 < 6 then some r else none
        | none => none
      else none
    match cached with
    | some r => (.ok r, store, 0)
    | none =>
      if !env.airVisualKeyConfigured then
        (.error "AIR_VISUAL_API_KEY is not configured. Please set it in your .env file.",
          store, 0)
      else
        let coords := getCityCoordinates cityName state country
        let reqResult := airVisualRequest env coords
        let resp := reqResult.1
        let n := reqResult.2
        if resp.ok && resp.statusSuccess then
          match resp.pollution with
          | some p =>
            let aqi := jsOrQ p.aqius (jsOrQ p.aqicn 50)
            let pm25 := jsOrQ p.pm25 (jsRound (aqi * (3/5)))
            let pm10 := jsOrQ p.pm10 (jsRound (aqi * (4/5)))
            let reading : AqiReadingT :=
              ⟨location, now, aqi, pm25, pm10, "airvisual"⟩
            (.ok reading, store ++ [reading], n)
          | none =>
            (.error "Failed to fetch AQI data from Air Visual API.", store, n)
        else
          (.error "Failed to fetch AQI data: Air Visual API error", store, n)

/-! ## Outbreak Reconciler (`pandemicService.js`) -/

/-- The model tag from `geminiConfig.js`. -/
def GEMINI_MODEL : String := "gemini-2.0-flash-001"

/-- One entry of the reasoning service's `detectedPandemics` array.  Every
field other than the disease name may be missing or carry an arbitrary
value — the JSON shape is not under the program's control. -/
structure DetectedPandemic where
  diseaseName : String
  activeCases : Option ℚ
  newCasesLast24h : Option ℚ
  severity : Option String
  transmissionRate : Option ℚ
  affectedAgeGroups : Option (List String)
  symptoms : Option (List String)
  requiredMedicines : Option (List String)
  notes : Option String
  deriving Repr, DecidableEq

/-- A parsed reasoning-service response used by
`analyzeAndCreatePandemicData` (`none` models both a failed call and a
non-JSON reply). -/
structure GeminiAnalysis where
  detectedPandemics : List DetectedPandemic
  analysis : Option String
  deriving Repr, DecidableEq

/-- A stored `PandemicData` document. -/
@[ext]
structure PandemicRecord where
  region : String
  date : ℚ
  diseaseName : String
  activeCases : ℚ
  newCases : ℚ
  recovered : ℚ
  deaths : ℚ
  severity : String
  transmissionRate : ℚ
  affectedAgeGroups : List String
  symptoms : List String
  requiredMedicines : List String
  notes : String
  source : String
  deriving Repr, DecidableEq

/-- The `severity` enum of `pandemicDataSchema`. -/
def validSeverity (sev : String) : Bool :=
  sev == "low" || sev == "moderate" || sev == "high" || sev == "critical"

/-- Schema validation run by mongoose when a new `PandemicData` document is
saved: the severity enum and the `min: 0, max: 10` bounds on
`transmissionRate`. -/
def createValid (r : PandemicRecord) : Bool :=
  validSeverity r.severity &&
    decide (0 ≤ r.transmissionRate) && decide (r.transmissionRate ≤ 10)

/-- Schema validation run by mongoose when an existing document is saved:
only modified paths are validated. -/
def updateValid (old new : PandemicRecord) : Bool :=
  (new.severity == old.severity || validSeverity new.severity) &&
    (new.transmissionRate == old.transmissionRate ||
      (decide (0 ≤ new.transmissionRate) && decide (new.transmissionRate ≤ 10)))

/-- The new `PandemicData` document built by `analyzeAndCreatePandemicData`
when no record for the disease exists in the last 24 hours. -/
def createFromDetected (region : String) (now s : ℚ) (analysis : Option String)
    (p : DetectedPandemic) : PandemicRecord :=
  { region := region
    date := now
    diseaseName := p.diseaseName
    activeCases := max 0 (jsRound (jsOrQ p.activeCases (50 * (s / 100))))
    newCases := max 0 (jsRound (jsOrQ p.newCasesLast24h (10 * (s / 100))))
    recovered := jsRound (jsOrQ p.activeCases 50 * (1/5))
    deaths := jsRound (jsOrQ p.activeCases 50 * (1/100))
    severity := jsOrS p.severity
      (if 70 < s then "high" else if 50 < s then "moderate" else "low")
    transmissionRate := min 10 (max 0 (jsOrQ p.transmissionRate ((s / 100) * 3)))
    affectedAgeGroups := p.affectedAgeGroups.getD ["adults", "elderly"]
    symptoms := p.symptoms.getD ["fever", "cough", "fatigue"]
    requiredMedicines := p.requiredMedicines.getD []
    notes := jsOrS p.notes
      ("AI-detected based on surge probability and environmental conditions. " ++
        analysis.getD "")
    source := "gemini-ai" }

/-- The in-place update applied by `analyzeAndCreatePandemicData` when a
record for the disease already exists within the last 24 hours: counts take
the maximum, severity and transmission rate take the new value when truthy,
medicine lists take the set union. -/
def mergePandemic (e : PandemicRecord) (p : DetectedPandemic) : PandemicRecord :=
  { e with
    activeCases := max e.activeCases (jsRound (jsOrQ p.activeCases e.activeCases))
    newCases := max e.newCases (jsRound (jsOrQ p.newCasesLast24h e.newCases))
    severity := jsOrS p.severity e.severity
    transmissionRate := jsOrQ p.transmissionRate e.transmissionRate
    requiredMedicines :=
      if 0 < (p.requiredMedicines.getD []).length then
        jsSetUnion e.requiredMedicines (p.requiredMedicines.getD [])
      else e.requiredMedicines }

/-- The `findOne` dedup query: a record for (region, disease) dated within
the trailing 24 hours. -/
def existingMatch (region disease : String) (now : ℚ) (r : PandemicRecord) :
    Bool :=
  r.region == region && r.diseaseName == disease &&
    decide (now - 86400000 ≤ r.date)

/-- Replace the first record satisfying `pred` (a mongoose document save on
the fetched document). -/
def replaceFirst (pred : PandemicRecord → Bool) (e' : PandemicRecord) :
    List PandemicRecord → List PandemicRecord
  | [] => []
  | r :: rest => if pred r then e' :: rest else r :: replaceFirst pred e' rest

/-- One iteration of the detected-pandemics loop: create a fresh record or
merge into the existing one; a rejected save raises, aborting the loop with
the store as saved so far (modelled by the `error` branch). -/
def applyDetected (now : ℚ) (region : String) (s : ℚ) (analysis : Option String)
    (acc : List PandemicRecord × List PandemicRecord) (p : DetectedPandemic) :
    Except (List PandemicRecord) (List PandemicRecord × List PandemicRecord) :=
  let store := acc.1
  let created := acc.2
  match store.find? (existingMatch region p.diseaseName now) with
  | none =>
    let r := createFromDetected region now s analysis p
    if createValid r then .ok (store ++ [r], created ++ [r])
    else .error store
  | some e =>
    let e' := mergePandemic e p
    if updateValid e e' then
      .ok (replaceFirst (existingMatch region p.diseaseName now) e' store, created)
    else .error store

/-- `analyzeAndCreatePandemicData` from `pandemicService.js`, as a function
of the parsed reasoning-service response.  Returns the list of newly
created records (the function's return value) and the updated store. -/
def analyzeAndCreatePandemicData (gemini : Option GeminiAnalysis) (now : ℚ)
    (store : List PandemicRecord) (region : String) (surgeProbability : ℚ) :
    List PandemicRecord × List PandemicRecord :=
  if surgeProbability < 40 then ([], store)
  else
    match gemini with
    | some g =>
      if 0 < g.detectedPandemics.length then
        match g.detectedPandemics.foldlM
            (applyDetected now region surgeProbability g.analysis) (store, []) with
        | .ok res => (res.2, res.1)
        | .error store' => ([], store')
      else purgeStale now store region
    | none => purgeStale now store region
where
  /-- The fallback branch: when the reasoning service yields no detections,
  purge `basic-analysis` records older than 7 days unless recent
  authoritative data exists. -/
  purgeStale (now : ℚ) (store : List PandemicRecord) (region : String) :
      List PandemicRecord × List PandemicRecord :=
    match store.find? (fun r => r.region == region &&
        decide (now - 604800000 ≤ r.date) &&
        (r.source == "gemini-ai" || r.source == "system")) with
    | some _ => ([], store)
    | none =>
      ([], store.filter (fun r => !(r.region == region &&
        decide (r.date < now - 604800000) && r.source == "basic-analysis")))

/-- Significant severities returned by `getActivePandemics`. -/
def severitySignificant (sev : String) : Bool :=
  sev == "moderate" || sev == "high" || sev == "critical"

/-- The Mongo sort `{ date: -1, activeCases: -1 }` as a total boolean
order. -/
def pandemicSortLE (a b : PandemicRecord) : Bool :=
  decide (b.date < a.date) ||
    (a.date == b.date && decide (b.activeCases ≤ a.activeCases))

/-- The insertion-ordered `Map` grouping of `getActivePandemics`: one entry
per disease, replaced only when a strictly newer record is seen. -/
def groupLatestByDisease (ps : List PandemicRecord) : List PandemicRecord :=
  (ps.foldl (fun m p =>
    match m.find? (fun kv => kv.1 == p.diseaseName) with
    | none => m ++ [(p.diseaseName, p)]
    | some kv =>
      if kv.2.date < p.date then
        m.map (fun kv' => if kv'.1 == p.diseaseName then (p.diseaseName, p) else kv')
      else m) ([] : List (String × PandemicRecord))).map (·.2)

/-- `getActivePandemics` from `pandemicService.js`: records for the region
in the trailing `days` window with positive active cases and significant
severity, sorted by date (then active cases) descending, grouped to the
latest record per disease. -/
def getActivePandemics (store : List PandemicRecord) (region : String)
    (now days : ℚ) : List PandemicRecord :=
  let startDate := now - days * 86400000
  let pandemics := (store.filter (fun r => r.region == region &&
      decide (startDate ≤ r.date) && decide (0 < r.activeCases) &&
      severitySignificant r.severity)).mergeSort pandemicSortLE
  groupLatestByDisease pandemics

/-- `getTotalActiveCases`: sum of active cases over the 7-day active
pandemics. -/
def getTotalActiveCases (store : List PandemicRecord) (region : String)
    (now : ℚ) : ℚ :=
  (getActivePandemics store region now 7).foldl (fun sum p => sum + p.activeCases) 0

/-- `getRequiredMedicinesFromPandemics`: the insertion-ordered set of all
medicines required by the 7-day active pandemics. -/
def getRequiredMedicinesFromPandemics (store : List PandemicRecord)
    (region : String) (now : ℚ) : List String :=
  jsSetDedup ((getActivePandemics store region now 7).foldl
    (fun acc p => acc ++ p.requiredMedicines) [])

/-- The outbreak observation of the specification's Mumbai/Influenza
scenario, parameterised by the active-case estimate. -/
def mumbaiObs (cases : ℚ) : DetectedPandemic :=
  { diseaseName := "Influenza", activeCases := some cases
    newCasesLast24h := some 10, severity := some "moderate"
    transmissionRate := some 2, affectedAgeGroups := none, symptoms := none
    requiredMedicines := some ["Oseltamivir"], notes := none }

/-- `calculatePatientCountFromPandemics` from `pandemicService.js`. -/
def calculatePatientCountFromPandemics (store : List PandemicRecord)
    (region : String) (now basePatientCount surgeProbability : ℚ) : ℚ :=
  let totalActiveCases := getTotalActiveCases store region now
  let estimatedCount := basePatientCount
  let surgeMultiplier := 1 + surgeProbability / 100 * (1/2)
  let estimatedCount := jsRound (estimatedCount * surgeMultiplier)
  let pandemicContribution := jsRound (totalActiveCases * (3/10))
  let estimatedCount := estimatedCount + pandemicContribution
  max basePatientCount estimatedCount

/-- One OpenWeatherMap response as inspected by `fetchAndStoreWeather`:
`response.ok`, whether `data.cod` signals an API error, and the optional
numeric fields read from the payload. -/
structure WeatherFetchResponse where
  ok : Bool
  codError : Bool
  temp : Option ℚ
  humidity : Option ℚ
  windSpeed : Option ℚ
  rain1h : Option ℚ
  rain3h : Option ℚ
  deriving Repr, DecidableEq

/-- The environment of one `fetchAndStoreWeather` invocation. -/
structure WeatherEnv where
  weatherKeyConfigured : Bool
  response : WeatherFetchResponse
  deriving Repr, DecidableEq

/-- `fetchAndStoreWeather` from `dataService.js`: freshness-gated fetch of a
weather reading.  Returns the result, the updated store, and the number of
external provider calls issued. -/
def fetchAndStoreWeather (env : WeatherEnv) (now : ℚ)
    (store : List WeatherReadingT) (cityName : String) (forceFetch : Bool) :
    Except String WeatherReadingT × List WeatherReadingT × Nat :=
  if cityName = "" then (.error "City name is required", store, 0)
  else
    let location := cityName
    let cached : Option WeatherReadingT :=
      if !forceFetch then
        match latestBy (·.timestamp) (fun r => r.location == location) store with
        | some r => if (now - r.timestamp) / 3600000 < 6 then some r else none
        | none => none
    else none
    match cached with
    | some r => (.ok r, store, 0)
    | none =>
      if !env.weatherKeyConfigured then
        (.error "WEATHER_API_KEY is not configured. Please set it in your .env file.",
          store, 0)
      else
        let resp := env.response
        if resp.ok then
          if resp.codError then
            (.error "Failed to fetch weather data: API returned an error", store, 1)
          else
            match resp.temp, resp.humidity with
            | some t, some h =>
              let windSpeedKmh := jsOrQ resp.windSpeed 0 * (18/5)
              let precipitation := jsOrQ resp.rain1h (jsOrQ resp.rain3h 0)
              let reading : WeatherReadingT :=
                { location := location, timestamp := now
                  temperature := jsRound (t * 10) / 10
                  humidity := jsRound h
                  windSpeed := jsRound (windSpeedKmh * 10) / 10
                  precipitation := jsRound (precipitation * 10) / 10 }
              (.ok reading, store ++ [reading], 1)
            | _, _ =>
              (.error "Failed to fetch weather data: Incomplete weather data received from API",
                store, 1)
        else
          (.error "Failed to fetch weather data: Weather API error", store, 1)

/-! ## Prediction Assembler (`predictionService.js`, `generatePrediction`) -/

/-- One `HospitalStats` document as read by `generatePrediction`. -/
structure HospitalStat where
  region : String
  date : ℚ
  admissions : ℚ
  deriving Repr, DecidableEq

/-- The fields of the reasoning-service (`runOperationsAgent`) reply that
`generatePrediction` reads; missing keys are `none`. -/
structure AgentResponse where
  staffingPlan : Option String
  supplyPlan : Option String
  weatherImpact : Option String
  aqiImpact : Option String
  deriving Repr, DecidableEq

/-- The `staffAdvice` sub-document of a prediction. -/
structure StaffAdvice where
  doctors : ℚ
  nurses : ℚ
  supportStaff : ℚ
  notes : String
  deriving Repr, DecidableEq

/-- The `supplyAdvice` sub-document of a prediction. -/
structure SupplyAdvice where
  oxygen : ℚ
  medicines : List String
  ppe : ℚ
  notes : String
  deriving Repr, DecidableEq

/-- One entry of `topFactors`. -/
structure TopFactor where
  feature : String
  impact : ℚ
  deriving Repr, DecidableEq

/-- The denormalised outbreak snapshot embedded in a prediction. -/
structure ActivePandemicSnapshot where
  diseaseName : String
  activeCases : ℚ
  newCases : ℚ
  severity : String
  transmissionRate : ℚ
  deriving Repr, DecidableEq

/-- A stored `Prediction` document. -/
structure PredictionT where
  region : String
  date : ℚ
  surgeProbability : ℚ
  estimatedPatientCount : ℚ
  modelVersion : String
  inputSnapshot : FeatureRecord
  staffAdvice : StaffAdvice
  supplyAdvice : SupplyAdvice
  topFactors : List TopFactor
  suggestedMedicines : List String
  suggestedDiseases : List String
  activePandemics : List ActivePandemicSnapshot
  weatherImpact : String
  aqiImpact : String
  deriving Repr, DecidableEq

/-- The persistent collections touched by one `generatePrediction` run. -/
structure DB where
  aqiStore : List AqiReadingT
  weatherStore : List WeatherReadingT
  hospitalStats : List HospitalStat
  pandemicStore : List PandemicRecord
  predictionStore : List PredictionT
  deriving Repr, DecidableEq

/-- The external world of one `generatePrediction` run: the two provider
environments, the reasoning-service outcomes (`runOperationsAgent`,
`getDiseasesForConditions`, `getMedicinesForDiseases`,
`detectPandemicsWithGemini` — all but the first recover internally and so
appear as plain values), and the wall clock. -/
structure PredictEnv where
  aqiEnv : AqiEnv
  weatherEnv : WeatherEnv
  agentResult : Except String AgentResponse
  diseases : List String
  medicines : List String
  gemini : Option GeminiAnalysis
  now : ℚ

/-- `HospitalStats.find({region}).sort({date:-1}).limit(7)` mapped to the
admissions column. -/
def hospitalAdmissionsLast7 (stats : List HospitalStat) (region : String) :
    List ℚ :=
  (((stats.filter (fun h => h.region == region)).mergeSort
    (fun a b => decide (b.date ≤ a.date))).take 7).map (·.admissions)

/-- The heuristic AQI estimate built inside `generatePrediction` when no
AQI reading exists and the provider fetch fails: a default pollutant
baseline keyed on temperature, tagged `source = "estimated"`.  It is an
in-memory object only. -/
def estimatedAqiFromWeather (cityName : String) (now : ℚ)
    (w : WeatherReadingT) : AqiReadingT :=
  let defaultAqi : ℚ :=
    if w.temperature > 35 then 80 else if w.temperature > 25 then 60 else 50
  { location := cityName, timestamp := now, aqi := defaultAqi
    pm25 := jsRound (defaultAqi * (3/5)), pm10 := jsRound (defaultAqi * (4/5))
    source := "estimated" }

/-- The feature record assembled by `generatePrediction` from the resolved
readings and the 7-day rolling admissions average (default baseline 50). -/
def buildFeatures (stats : List HospitalStat) (cityName : String)
    (weather : WeatherReadingT) (aqi : AqiReadingT) : FeatureRecord :=
  let admissions := hospitalAdmissionsLast7 stats cityName
  let admissionsLast7dAvg : ℚ :=
    if 0 < admissions.length then admissions.sum / admissions.length else 50
  { aqi := aqi.aqi, pm25 := aqi.pm25, pm10 := aqi.pm10
    temperature := weather.temperature, humidity := weather.humidity
    windSpeed := weather.windSpeed, precipitation := weather.precipitation
    admissionsLast7dAvg := admissionsLast7dAvg, baselineAdmissions := 50
    isFestival := false, festivalMultiplier := 0 }

/-- The tail of `generatePrediction` after the readings and the reasoning
service reply are in hand: score, reconcile outbreaks, combine medicines,
estimate the patient count, and persist one prediction document. -/
def assemblePrediction (env : PredictEnv) (db₂ : DB) (cityName : String)
    (date : ℚ) (features : FeatureRecord) (agentResponse : AgentResponse) :
    PredictionT × DB :=
  let surgeProbability := calculateSurgeProbability features
  let suggestedDiseases := env.diseases
  let suggestedMedicines := env.medicines
  let analyzed := analyzeAndCreatePandemicData env.gemini env.now
    db₂.pandemicStore cityName surgeProbability
  let db₃ : DB := { db₂ with pandemicStore := analyzed.2 }
  let activePandemics := getActivePandemics db₃.pandemicStore cityName env.now 7
  let pandemicMedicines :=
    getRequiredMedicinesFromPandemics db₃.pandemicStore cityName env.now
  let allMedicines := jsSetDedup (suggestedMedicines ++ pandemicMedicines)
  let baselinePatients : ℚ := 100
  let estimatedPatientCount := calculatePatientCountFromPandemics
    db₃.pandemicStore cityName env.now baselinePatients surgeProbability
  let prediction : PredictionT :=
    { region := cityName, date := date
      surgeProbability := surgeProbability
      estimatedPatientCount := estimatedPatientCount
      modelVersion := GEMINI_MODEL
      inputSnapshot := features
      staffAdvice :=
        { doctors := jsCeil (10 * (1 + surgeProbability / 100))
          nurses := jsCeil (20 * (1 + surgeProbability / 100))
          supportStaff := jsCeil (5 * (1 + surgeProbability / 100))
          notes := jsOrS agentResponse.staffingPlan "Standard staffing levels" }
      supplyAdvice :=
        { oxygen := jsCeil (1000 * (1 + surgeProbability / 100))
          medicines := allMedicines
          ppe := jsCeil (500 * (1 + surgeProbability / 100))
          notes := jsOrS agentResponse.supplyPlan "Standard supply levels" }
      topFactors :=
        [⟨"aqi", if features.aqi > 100 then 3/10 else 1/10⟩,
         ⟨"temperature", if features.temperature > 35 then 1/4 else 1/10⟩,
         ⟨"admissions_trend", if features.admissionsLast7dAvg > 60 then 1/5 else 1/10⟩]
      suggestedMedicines := allMedicines
      suggestedDiseases := suggestedDiseases
      activePandemics := activePandemics.map (fun p =>
        ⟨p.diseaseName, p.activeCases, p.newCases, p.severity,
          p.transmissionRate⟩)
      weatherImpact := jsOrS agentResponse.weatherImpact "Normal weather conditions"
      aqiImpact := jsOrS agentResponse.aqiImpact "Normal air quality" }
  (prediction, { db₃ with predictionStore := db₃.predictionStore ++ [prediction] })

/-- `generatePrediction` from `predictionService.js`: resolve the mandatory
weather reading (forced fetch on a miss, error fatal), resolve the optional
AQI reading (forced fetch on a miss, heuristic estimate on failure), build
the feature record, then score/advise/reconcile/persist via
`assemblePrediction`. -/
def generatePrediction (env : PredictEnv) (db : DB) (cityName : String)
    (date : ℚ) : Except String PredictionT × DB :=
  if cityName = "" then (.error "City name is required", db)
  else
    let weatherResolved : Except (List WeatherReadingT)
        (WeatherReadingT × List WeatherReadingT) :=
      match getLatestWeather db.weatherStore cityName with
      | some w => .ok (w, db.weatherStore)
      | none =>
        match fetchAndStoreWeather env.weatherEnv env.now db.weatherStore
            cityName true with
        | (.ok w, st, _) => .ok (w, st)
        | (.error _, st, _) => .error st
    match weatherResolved with
    | .error wst =>
      (.error ("Weather data is required but could not be fetched for " ++
        cityName ++ ". Please check your WEATHER_API_KEY configuration."),
        { db with weatherStore := wst })
    | .ok (weather, wst) =>
      let db₁ : DB := { db with weatherStore := wst }
      let aqiResolved : AqiReadingT × List AqiReadingT :=
        match getLatestAqi db₁.aqiStore cityName with
        | some a => (a, db₁.aqiStore)
        | none =>
          match fetchAndStoreAqi env.aqiEnv env.now db₁.aqiStore cityName ""
              "India" true with
          | (.ok a, st, _) => (a, st)
          | (.error _, st, _) => (estimatedAqiFromWeather cityName env.now weather, st)
      let db₂ : DB := { db₁ with aqiStore := aqiResolved.2 }
      let features := buildFeatures db₂.hospitalStats cityName weather aqiResolved.1
      match env.agentResult with
      | .error msg => (.error ("AI agent failed: " ++ msg), db₂)
      | .ok agentResponse =>
        let assembled := assemblePrediction env db₂ cityName date features agentResponse
        (.ok assembled.1, assembled.2)

/-- Concrete run for the estimated-AQI scenario: no stored AQI reading, a
fresh weather reading for Delhi at 22°, an unconfigured AQI provider key, a
succeeding reasoning service. -/
def envC6 : PredictEnv :=
  { aqiEnv := ⟨false, fun _ => ⟨false, false, none⟩⟩
    weatherEnv := ⟨true, ⟨true, false, some 22, some 40, none, none, none⟩⟩
    agentResult := .ok ⟨none, none, none, none⟩
    diseases := [], medicines := [], gemini := none, now := 0 }

/-- The database for the estimated-AQI scenario: one weather reading, no
AQI readings. -/
def dbC6 : DB :=
  { aqiStore := [], weatherStore := [⟨"Delhi", 0, 22, 40, 10, 0⟩]
    hospitalStats := [], pandemicStore := [], predictionStore := [] }

/-! ## Location validation and the predict route
(`locationUtils.js`, `predictionRoutes.js`) -/

/-- `charAt(0).toUpperCase() + slice(1).toLowerCase()` (ASCII case mapping). -/
def capitalizeWord (w : String) : String :=
  match w.toList with
  | [] => ""
  | c :: rest => String.mk (c.toUpper :: rest.map Char.toLower)

/-- `normalizeCityName` from `locationUtils.js`: trim, capitalise each
space-separated word; falsy input yields `null`. -/
def normalizeCityName (cityName : String) : Option String :=
  if cityName = "" then none
  else some (joinWith " " ((jsSplit (jsTrim cityName) ' ').map capitalizeWord))

/-- `extractCityName` from `locationUtils.js`: take the part before the
first comma, then normalise. -/
def extractCityName (location : String) : Option String :=
  if location = "" then none
  else if location.toList.contains ',' then
    normalizeCityName ((jsSplit location ',').getD 0 "")
  else normalizeCityName location

/-- The character class `[a-zA-Z\s\-'\.]` of `isValidCityName` (ASCII
whitespace for `\s`). -/
def jsCityChar (c : Char) : Bool :=
  c.isAlpha || c = ' ' || c = '\t' || c = '\n' || c = '\r' ||
    c = '\x0b' || c = '\x0c' || c = '-' || c = '\'' || c = '.'

/-- The regex test `/^[a-zA-Z\s\-'\.]{2,}$/.test(cityName.trim())`. -/
def isValidCityNameStr (s : String) : Bool :=
  decide (2 ≤ (jsTrim s).length) && (jsTrim s).toList.all jsCityChar

/-- `isValidCityName` from `locationUtils.js`: falsy input is invalid,
otherwise the trimmed name must match the regex. -/
def isValidCityName (cityName : Option String) : Bool :=
  match cityName with
  | none => false
  | some s => if s = "" then false else isValidCityNameStr s

/-- The request body of `POST /api/predictions/predict`. -/
structure PredictRequestBody where
  city : Option String
  date : Option ℚ
  lat : Option ℚ
  lon : Option ℚ
  deriving Repr, DecidableEq

/-- An HTTP response as far as the claims observe it. -/
structure ApiResponse where
  status : Nat
  success : Bool
  message : Option String
  deriving Repr, DecidableEq

/-- The number of provider calls `generatePrediction` issues for the given
inputs: a forced weather fetch when no reading is stored (aborting on
failure), then a forced AQI fetch when no AQI reading is stored. -/
def generatePredictionProviderCalls (env : PredictEnv) (db : DB)
    (cityName : String) : Nat :=
  if cityName = "" then 0
  else
    let aqiPart : Nat :=
      match getLatestAqi db.aqiStore cityName with
      | some _ => 0
      | none => (fetchAndStoreAqi env.aqiEnv env.now db.aqiStore cityName ""
          "India" true).2.2
    match getLatestWeather db.weatherStore cityName with
    | some _ => aqiPart
    | none =>
      let wFetch := fetchAndStoreWeather env.weatherEnv env.now db.weatherStore
        cityName true
      wFetch.2.2 + (match wFetch.1 with | .ok _ => aqiPart | .error _ => 0)

/-- The final stage of the predict route: run `generatePrediction` and map
its outcome to a 200 or 500 response. -/
def predictFinish (env : PredictEnv) (db : DB) (cityStr : String)
    (date : Option ℚ) (calls : Nat) : ApiResponse × DB × Nat :=
  let total := calls + generatePredictionProviderCalls env db cityStr
  let pred := generatePrediction env db cityStr (jsOrQ date env.now)
  match pred.1 with
  | .ok _ => (⟨200, true, none⟩, pred.2, total)
  | .error m => (⟨500, false, some m⟩, pred.2, total)

/-- The handler of `POST /api/predictions/predict` from
`predictionRoutes.js`: require a city, normalise and validate it (400 on
failure, before any provider call), then force-refresh both signals
(failures swallowed; a failing AQI fetch skips the weather fetch) and
generate the prediction. -/
def predictHandler (env : PredictEnv) (db : DB) (body : PredictRequestBody) :
    ApiResponse × DB × Nat :=
  let missingCity : ApiResponse :=
    ⟨400, false, some (if jsTruthyQ body.lat && jsTruthyQ body.lon then
      "City name is required. Automatic location detection from coordinates is not yet implemented."
      else "City name is required")⟩
  match body.city with
  | none => (missingCity, db, 0)
  | some c =>
    if c = "" then (missingCity, db, 0)
    else
      let city := extractCityName c
      if !isValidCityName city then
        (⟨400, false, some "Invalid city name provided"⟩, db, 0)
      else
        let cityStr := city.getD ""
        match fetchAndStoreAqi env.aqiEnv env.now db.aqiStore cityStr ""
            "India" true with
        | (.ok _, ast, na) =>
          let db₁ : DB := { db with aqiStore := ast }
          let wFetch := fetchAndStoreWeather env.weatherEnv env.now
            db₁.weatherStore cityStr true
          let db₂ : DB := { db₁ with weatherStore := wFetch.2.1 }
          predictFinish env db₂ cityStr body.date (na + wFetch.2.2)
        | (.error _, ast, na) =>
          predictFinish env { db with aqiStore := ast } cityStr body.date na

end MediOps

namespace MediOps

lemma ite_add_shift (c : Prop) [Decidable c] (p k : ℚ) :
    (if c then p + k else p) = p + (if c then k else 0) := by
  split <;> simp

/-- C1: the risk scorer agrees with the specification's additive reference
definition on every feature record, its output always lies in `[0, 100]`,
and on the Delhi scenario (AQI 180, temperature 22, humidity 40, no
precipitation/festival/admission bonuses) it returns exactly 45. -/
theorem C1_surge_probability_correct :
    (∀ f : FeatureRecord, calculateSurgeProbability f = surgeScoreSpec f) ∧
    (∀ f : FeatureRecord,
      0 ≤ calculateSurgeProbability f ∧ calculateSurgeProbability f ≤ 100) ∧
    calculateSurgeProbability delhiScenarioFeatures = 45 := by
  refine ⟨?_, ?_, by norm_num [calculateSurgeProbability, delhiScenarioFeatures]⟩
  · intro f
    simp only [calculateSurgeProbability, surgeScoreSpec, ite_add_shift]
    by_cases h₁ : f.aqi > 150 <;> by_cases h₂ : f.aqi > 100 <;>
      by_cases h₃ : f.aqi > 50 <;> simp [h₁, h₂, h₃]
  · intro f
    simp only [calculateSurgeProbability]
    exact ⟨le_min (by norm_num) (le_max_left 0 _), min_le_left _ _⟩

section RetryLemmas

variable {α : Type}

lemma withRetryGo_ok (calls : Nat → Except JsError α) (jitter : Nat → ℚ)
    (o : RetryOptions) (v : α) (errs : Nat → JsError) :
    ∀ (k r a : Nat) (d : ℚ), k ≤ r →
      (∀ i, i < k → calls (a + i) = .error (errs (a + i))) →
      (∀ i, i < k → isRetryable (errs (a + i)) = true) →
      calls (a + k) = .ok v →
      (withRetryGo calls jitter o r a d).result = .ok v ∧
        (withRetryGo calls jitter o r a d).callsMade = a + k + 1 := by
  intro k
  induction k with
  | zero =>
    intro r a d _ _ _ hsucc
    rcases r with _ | r <;> simp_all [withRetryGo]
  | succ k ih =>
    intro r a d hkr hfail hretry hsucc
    rcases r with _ | r
    · omega
    · have h0 : calls a = .error (errs a) := by simpa using hfail 0 (Nat.succ_pos k)
      have hr0 : isRetryable (errs a) = true := by simpa using hretry 0 (Nat.succ_pos k)
      have hrec := ih r (a + 1) (min (d * o.backoffMultiplier) o.maxDelay)
        (Nat.le_of_succ_le_succ hkr)
        (fun i hi => by
          have := hfail (i + 1) (Nat.succ_lt_succ hi)
          simpa [Nat.add_assoc, Nat.add_comm 1 i] using this)
        (fun i hi => by
          have := hretry (i + 1) (Nat.succ_lt_succ hi)
          simpa [Nat.add_assoc, Nat.add_comm 1 i] using this)
        (by simpa [Nat.add_assoc, Nat.add_comm 1 k] using hsucc)
      simp only [withRetryGo, h0, hr0, if_true]
      exact ⟨hrec.1, by simp [hrec.2]; omega⟩

lemma withRetryGo_exhaust (calls : Nat → Except JsError α) (jitter : Nat → ℚ)
    (o : RetryOptions) (errs : Nat → JsError) :
    ∀ (r a : Nat) (d : ℚ),
      (∀ i, i ≤ r → calls (a + i) = .error (errs (a + i))) →
      (∀ i, i < r → isRetryable (errs (a + i)) = true) →
      (withRetryGo calls jitter o r a d).result = .error (errs (a + r)) ∧
        (withRetryGo calls jitter o r a d).callsMade = a + r + 1 := by
  intro r
  induction r with
  | zero =>
    intro a d hfail _
    have := hfail 0 (Nat.le_refl 0)
    simp_all [withRetryGo]
  | succ r ih =>
    intro a d hfail hretry
    have h0 : calls a = .error (errs a) := by simpa using hfail 0 (Nat.zero_le _)
    have hr0 : isRetryable (errs a) = true := by simpa using hretry 0 (Nat.succ_pos r)
    have hrec := ih (a + 1) (min (d * o.backoffMultiplier) o.maxDelay)
      (fun i hi => by
        have := hfail (i + 1) (Nat.succ_le_succ hi)
        simpa [Nat.add_assoc, Nat.add_comm 1 i] using this)
      (fun i hi => by
        have := hretry (i + 1) (Nat.succ_lt_succ hi)
        simpa [Nat.add_assoc, Nat.add_comm 1 i] using this)
    simp only [withRetryGo, h0, hr0, if_true]
    constructor
    · rw [hrec.1]; congr 2; omega
    · simp [hrec.2]; omega

lemma withRetryGo_nonretryable (calls : Nat → Except JsError α) (jitter : Nat → ℚ)
    (o : RetryOptions) (errs : Nat → JsError) (e : JsError) :
    ∀ (k r a : Nat) (d : ℚ), k ≤ r →
      (∀ i, i < k → calls (a + i) = .error (errs (a + i))) →
      (∀ i, i < k → isRetryable (errs (a + i)) = true) →
      calls (a + k) = .error e → isRetryable e = false →
      (withRetryGo calls jitter o r a d).result = .error e ∧
        (withRetryGo calls jitter o r a d).callsMade = a + k + 1 := by
  intro k
  induction k with
  | zero =>
    intro r a d _ _ _ hke hnr
    rcases r with _ | r <;> simp_all [withRetryGo]
  | succ k ih =>
    intro r a d hkr hfail hretry hke hnr
    rcases r with _ | r
    · omega
    · have h0 : calls a = .error (errs a) := by simpa using hfail 0 (Nat.succ_pos k)
      have hr0 : isRetryable (errs a) = true := by simpa using hretry 0 (Nat.succ_pos k)
      have hrec := ih r (a + 1) (min (d * o.backoffMultiplier) o.maxDelay)
        (Nat.le_of_succ_le_succ hkr)
        (fun i hi => by
          have := hfail (i + 1) (Nat.succ_lt_succ hi)
          simpa [Nat.add_assoc, Nat.add_comm 1 i] using this)
        (fun i hi => by
          have := hretry (i + 1) (Nat.succ_lt_succ hi)
          simpa [Nat.add_assoc, Nat.add_comm 1 i] using this)
        (by simpa [Nat.add_assoc, Nat.add_comm 1 k] using hke) hnr
      simp only [withRetryGo, h0, hr0, if_true]
      exact ⟨hrec.1, by simp [hrec.2]; omega⟩

end RetryLemmas

/-- C3: when a closure fails `N` times with retryable failures and then
succeeds, `withRetry` with `maxRetries ≥ N` returns the success value after
exactly `N + 1` invocations; with `maxRetries < N` it re-raises the last
failure it saw (after `maxRetries + 1` invocations); and a non-retryable
failure is re-raised immediately without any further invocation. -/
theorem C3_withRetry_retry_semantics {α : Type}
    (calls : Nat → Except JsError α) (jitter : Nat → ℚ) (o : RetryOptions)
    (N : Nat) (v : α) (errs : Nat → JsError)
    (hfail : ∀ i, i < N → calls i = .error (errs i))
    (hretry : ∀ i, i < N → isRetryable (errs i) = true)
    (hsucc : calls N = .ok v) :
    (N ≤ o.maxRetries →
      (withRetry calls jitter o).result = .ok v ∧
        (withRetry calls jitter o).callsMade = N + 1) ∧
    (o.maxRetries < N →
      (withRetry calls jitter o).result = .error (errs o.maxRetries) ∧
        (withRetry calls jitter o).callsMade = o.maxRetries + 1) ∧
    (∀ (calls₂ : Nat → Except JsError α) (e : JsError) (k : Nat),
      k ≤ o.maxRetries →
      (∀ i, i < k → calls₂ i = .error (errs i)) →
      (∀ i, i < k → isRetryable (errs i) = true) →
      calls₂ k = .error e → isRetryable e = false →
      (withRetry calls₂ jitter o).result = .error e ∧
        (withRetry calls₂ jitter o).callsMade = k + 1) := by
  refine ⟨?_, ?_, ?_⟩
  · intro hN
    have := withRetryGo_ok calls jitter o v errs N o.maxRetries 0 o.initialDelay hN
      (fun i hi => by simpa using hfail i hi)
      (fun i hi => by simpa using hretry i hi)
      (by simpa using hsucc)
    simpa [withRetry] using this
  · intro hN
    have := withRetryGo_exhaust calls jitter o errs o.maxRetries 0 o.initialDelay
      (fun i hi => by simpa using hfail i (lt_of_le_of_lt hi hN))
      (fun i hi => by simpa using hretry i (lt_trans hi hN))
    simpa [withRetry] using this
  · intro calls₂ e k hk hfail₂ hretry₂ hke hnr
    have := withRetryGo_nonretryable calls₂ jitter o errs e k o.maxRetries 0
      o.initialDelay hk
      (fun i hi => by simpa using hfail₂ i hi)
      (fun i hi => by simpa using hretry₂ i hi)
      (by simpa using hke) hnr
    simpa [withRetry] using this

/-- Witness for C3 at a concrete closure that fails twice with a 429
rate-limit error and then succeeds, under the default options
(`maxRetries = 4`). -/
theorem C3_withRetry_retry_semantics_witness :
    (withRetry (fun i => if i < 2 then .error ⟨some 429, none, none⟩ else .ok (7 : Nat))
        (fun _ => 0) {}).result = .ok 7 ∧
      (withRetry (fun i => if i < 2 then .error ⟨some 429, none, none⟩ else .ok (7 : Nat))
        (fun _ => 0) {}).callsMade = 3 :=
  (C3_withRetry_retry_semantics
    (fun i => if i < 2 then .error ⟨some 429, none, none⟩ else .ok (7 : Nat))
    (fun _ => 0) {} 2 7 (fun _ => ⟨some 429, none, none⟩)
    (fun i hi => by interval_cases i <;> rfl)
    (fun i _ => by rfl)
    (by rfl)).1 (by decide)

/-- C8: after a retryable failure, the sleep performed by `withRetry` is
`nextRetryDelay`, which prefers a truthy provider retry hint, otherwise uses
the current exponential delay (times 1.5 for rate limits), adds the drawn
jitter and clamps at `maxDelay`; the exponential delay passed to the next
attempt is the current delay times `backoffMultiplier`, capped at
`maxDelay`. -/
theorem C8_retry_delay_computation {α : Type}
    (calls : Nat → Except JsError α) (jitter : Nat → ℚ) (o : RetryOptions)
    (e : JsError)
    (_hjit : ∀ n, 0 ≤ jitter n ∧ jitter n < 2000)
    (h0 : calls 0 = .error e) (hr : isRetryable e = true)
    (hmr : 1 ≤ o.maxRetries) :
    (withRetry calls jitter o).sleeps.head? =
      some (nextRetryDelay e o.initialDelay (jitter 0) o.maxDelay) ∧
    (∀ (e' : JsError) (d j mD : ℚ),
      (jsTruthyI (getRetryDelay e') = true →
        nextRetryDelay e' d j mD = min ((((getRetryDelay e').getD 0 : ℤ) : ℚ) + j) mD) ∧
      (jsTruthyI (getRetryDelay e') = false → isRateLimit e' = true →
        nextRetryDelay e' d j mD = min (d * (3/2) + j) mD) ∧
      (jsTruthyI (getRetryDelay e') = false → isRateLimit e' = false →
        nextRetryDelay e' d j mD = min (d + j) mD)) ∧
    (∀ e₂, calls 1 = .error e₂ → isRetryable e₂ = true → 2 ≤ o.maxRetries →
      (withRetry calls jitter o).sleeps.get? 1 =
        some (nextRetryDelay e₂ (min (o.initialDelay * o.backoffMultiplier) o.maxDelay)
          (jitter 1) o.maxDelay)) := by
  refine ⟨?_, ?_, ?_⟩
  · obtain ⟨r, hr'⟩ := Nat.exists_eq_add_of_le hmr
    simp [withRetry, hr', Nat.add_comm 1 r, withRetryGo, h0, hr]
  · intro e' d j mD
    refine ⟨?_, ?_, ?_⟩ <;> intro h₁ <;> simp [nextRetryDelay, h₁] <;>
      intro h₂ <;> simp [h₂]
  · intro e₂ h1 hr2 hmr2
    obtain ⟨r, hr'⟩ := Nat.exists_eq_add_of_le hmr2
    simp [withRetry, hr', Nat.add_comm 2 r, withRetryGo, h0, hr, h1, hr2]

lemma airVisualRequest_calls_pos (env : AqiEnv) (coords : CityCoords) :
    1 ≤ (airVisualRequest env coords).2 := by
  unfold airVisualRequest
  split_ifs <;> (try simp) <;> (try split_ifs) <;> simp

/-- C2: with `force = false`, both fetchers return a stored reading younger
than six hours unchanged, leave the store untouched and issue zero provider
calls; with `force = true` (given a nonempty city name, and the provider
key, which the server entry point always configures via an environment
default) they issue at least one provider call. -/
theorem C2_freshness_cache_semantics (envA : AqiEnv) (envW : WeatherEnv)
    (now : ℚ) (astore : List AqiReadingT) (wstore : List WeatherReadingT)
    (city state country : String) (hcity : city ≠ "") :
    (∀ r, latestBy (·.timestamp) (fun x => x.location == city) astore = some r →
      (now - r.timestamp) / 3600000 < 6 →
      fetchAndStoreAqi envA now astore city state country false = (.ok r, astore, 0)) ∧
    (∀ r, latestBy (·.timestamp) (fun x => x.location == city) wstore = some r →
      (now - r.timestamp) / 3600000 < 6 →
      fetchAndStoreWeather envW now wstore city false = (.ok r, wstore, 0)) ∧
    (envA.airVisualKeyConfigured = true →
      1 ≤ (fetchAndStoreAqi envA now astore city state country true).2.2) ∧
    (envW.weatherKeyConfigured = true →
      1 ≤ (fetchAndStoreWeather envW now wstore city true).2.2) := by
  refine ⟨?_, ?_, ?_, ?_⟩
  · intro r hlat hfresh
    simp [fetchAndStoreAqi, hcity, hlat, hfresh]
  · intro r hlat hfresh
    simp [fetchAndStoreWeather, hcity, hlat, hfresh]
  · intro hkey
    simp only [fetchAndStoreAqi, if_neg hcity, hkey, Bool.not_true,
      Bool.false_eq_true, if_false]
    split
    · split
      · exact airVisualRequest_calls_pos _ _
      · exact airVisualRequest_calls_pos _ _
    · exact airVisualRequest_calls_pos _ _
  · intro hkey
    simp only [fetchAndStoreWeather, if_neg hcity, hkey, Bool.not_true,
      Bool.false_eq_true, if_false]
    split_ifs <;> (try simp) <;> (try split) <;> simp

/-- Witness for C2: a one-element store holding a reading of age zero for
"Delhi" is served from cache with zero calls, and forced fetches with
configured keys issue at least one call. -/
theorem C2_freshness_cache_semantics_witness :
    (fetchAndStoreAqi ⟨true, fun _ => ⟨true, true, none⟩⟩ 0
        [⟨"Delhi", 0, 150, 90, 120, "airvisual"⟩] "Delhi" "" "India" false =
      (.ok ⟨"Delhi", 0, 150, 90, 120, "airvisual"⟩,
        [⟨"Delhi", 0, 150, 90, 120, "airvisual"⟩], 0)) ∧
    (1 ≤ (fetchAndStoreWeather ⟨true, ⟨true, false, some 22, some 40, none, none, none⟩⟩ 0
        [] "Delhi" true).2.2) := by
  have h := C2_freshness_cache_semantics ⟨true, fun _ => ⟨true, true, none⟩⟩
    ⟨true, ⟨true, false, some 22, some 40, none, none, none⟩⟩ 0
    [⟨"Delhi", 0, 150, 90, 120, "airvisual"⟩] [] "Delhi" "" "India"
    (by decide)
  exact ⟨h.1 ⟨"Delhi", 0, 150, 90, 120, "airvisual"⟩ rfl (by norm_num),
    h.2.2.2 rfl⟩

section DedupLemmas

lemma mem_jsSetDedup {a : String} : ∀ {l : List String}, a ∈ jsSetDedup l ↔ a ∈ l := by
  intro l
  induction l using jsSetDedup.induct with
  | case1 => simp [jsSetDedup]
  | case2 x xs ih =>
    rw [jsSetDedup]
    simp only [List.mem_cons, ih, List.mem_filter, decide_eq_true_eq]
    by_cases hax : a = x <;> tauto

lemma nodup_jsSetDedup : ∀ l : List String, (jsSetDedup l).Nodup := by
  intro l
  induction l using jsSetDedup.induct with
  | case1 => simp [jsSetDedup]
  | case2 x xs ih =>
    rw [jsSetDedup]
    refine List.nodup_cons.mpr ⟨fun hmem => ?_, ih⟩
    have := (mem_jsSetDedup.mp hmem)
    simp [List.mem_filter] at this

lemma jsSetDedup_eq_self : ∀ l : List String, l.Nodup → jsSetDedup l = l := by
  intro l
  induction l using jsSetDedup.induct with
  | case1 => intro _; rw [jsSetDedup]
  | case2 x xs ih =>
    intro hnd
    rw [jsSetDedup]
    have hx : x ∉ xs := (List.nodup_cons.mp hnd).1
    have hfilter : xs.filter (· ≠ x) = xs := by
      apply List.filter_eq_self.mpr
      intro b hb
      simp only [decide_eq_true_eq]
      exact fun hbx => hx (hbx ▸ hb)
    rw [hfilter] at ih ⊢
    rw [ih (List.nodup_cons.mp hnd).2]

lemma jsSetDedup_append_of_subset :
    ∀ (l p : List String), (∀ a ∈ p, a ∈ l) → jsSetDedup (l ++ p) = jsSetDedup l := by
  intro l
  induction l using jsSetDedup.induct with
  | case1 =>
    intro p hp
    have : p = [] := List.eq_nil_iff_forall_not_mem.mpr
      (fun a ha => by simpa using hp a ha)
    simp [this]
  | case2 x xs ih =>
    intro p hp
    rw [List.cons_append, jsSetDedup, jsSetDedup, List.filter_append]
    congr 1
    apply ih
    intro a ha
    rw [List.mem_filter] at ha ⊢
    refine ⟨?_, ha.2⟩
    have hax : a ≠ x := by simpa using ha.2
    have := hp a ha.1
    simp only [List.mem_cons] at this
    tauto

lemma jsSetUnion_idem_right (xs ys : List String) :
    jsSetUnion (jsSetUnion xs ys) ys = jsSetUnion xs ys := by
  unfold jsSetUnion
  rw [jsSetDedup_append_of_subset _ _
    (fun a ha => mem_jsSetDedup.mpr (List.mem_append_right _ ha))]
  exact jsSetDedup_eq_self _ (nodup_jsSetDedup _)

end DedupLemmas

section RoundLemmas

lemma jsRound_intCast (n : ℤ) : jsRound (n : ℚ) = (n : ℚ) := by
  unfold jsRound
  norm_num

lemma jsRound_jsRound (q : ℚ) : jsRound (jsRound q) = jsRound q :=
  jsRound_intCast _

lemma max_jsRound_fix (a : ℚ) :
    max (max a (jsRound a)) (jsRound (max a (jsRound a))) = max a (jsRound a) := by
  rcases le_total (jsRound a) a with h | h
  · rw [max_eq_left h, max_eq_left h]
  · rw [max_eq_right h, jsRound_jsRound, max_self]

lemma mergeCount_idem (e : ℚ) (v : Option ℚ) :
    max (max e (jsRound (jsOrQ v e)))
        (jsRound (jsOrQ v (max e (jsRound (jsOrQ v e))))) =
      max e (jsRound (jsOrQ v e)) := by
  match v with
  | none => simpa [jsOrQ] using max_jsRound_fix e
  | some a =>
    by_cases ha : a = 0
    · simpa [jsOrQ, ha] using max_jsRound_fix e
    · simp only [jsOrQ, if_neg ha]
      rw [max_assoc, max_self]

lemma jsOrQ_idem (v : Option ℚ) (e : ℚ) : jsOrQ v (jsOrQ v e) = jsOrQ v e := by
  match v with
  | none => rfl
  | some a => by_cases ha : a = 0 <;> simp [jsOrQ, ha]

lemma jsOrS_idem (v : Option String) (e : String) :
    jsOrS v (jsOrS v e) = jsOrS v e := by
  match v with
  | none => rfl
  | some a => by_cases ha : a = "" <;> simp [jsOrS, ha]

lemma replaceFirst_length (pred : PandemicRecord → Bool) (e' : PandemicRecord) :
    ∀ l : List PandemicRecord, (replaceFirst pred e' l).length = l.length := by
  intro l
  induction l with
  | nil => rfl
  | cons r rest ih => by_cases h : pred r <;> simp [replaceFirst, h, ih]

end RoundLemmas

/-- C4: the outbreak merge takes the maximum of old and new case counts,
the new severity/transmission rate when provided, and the duplicate-free
union of medicine lists; it is idempotent; a second observation within 24
hours never adds a record; and the Mumbai/Influenza 50-then-80 scenario
ends with a single record holding 80 active cases. -/
theorem C4_outbreak_merge_dedup :
    (∀ (e : PandemicRecord) (p : DetectedPandemic),
      mergePandemic (mergePandemic e p) p = mergePandemic e p) ∧
    (∀ (e : PandemicRecord) (p : DetectedPandemic) (a : ℚ),
      p.activeCases = some a → a ≠ 0 →
      (mergePandemic e p).activeCases = max e.activeCases (jsRound a)) ∧
    (∀ (e : PandemicRecord) (p : DetectedPandemic) (sv : String),
      p.severity = some sv → sv ≠ "" → (mergePandemic e p).severity = sv) ∧
    (∀ (e : PandemicRecord) (p : DetectedPandemic) (t : ℚ),
      p.transmissionRate = some t → t ≠ 0 →
      (mergePandemic e p).transmissionRate = t) ∧
    (∀ (e : PandemicRecord) (p : DetectedPandemic) (ms : List String),
      p.requiredMedicines = some ms → ms ≠ [] →
      (mergePandemic e p).requiredMedicines.Nodup ∧
        ∀ m, m ∈ (mergePandemic e p).requiredMedicines ↔
          (m ∈ e.requiredMedicines ∨ m ∈ ms)) ∧
    (∀ (now : ℚ) (region : String) (s : ℚ) (analysis : Option String)
      (store created : List PandemicRecord) (p : DetectedPandemic),
      (store.find? (existingMatch region p.diseaseName now)).isSome →
      (∀ st cr, applyDetected now region s analysis (store, created) p = .ok (st, cr) →
        st.length = store.length ∧ cr = created) ∧
      (∀ st, applyDetected now region s analysis (store, created) p = .error st →
        st = store)) ∧
    ((analyzeAndCreatePandemicData (some ⟨[mumbaiObs 80], none⟩) 10800000
        (analyzeAndCreatePandemicData (some ⟨[mumbaiObs 50], none⟩) 0 [] "Mumbai" 45).2
        "Mumbai" 45).2.map (·.activeCases)) = [80] := by
  refine ⟨?_, ?_, ?_, ?_, ?_, ?_, ?_⟩
  · intro e p
    apply PandemicRecord.ext <;> simp only [mergePandemic]
    · exact mergeCount_idem _ _
    · exact mergeCount_idem _ _
    · exact jsOrS_idem _ _
    · exact jsOrQ_idem _ _
    · by_cases hl : 0 < (p.requiredMedicines.getD []).length
      · simp only [if_pos hl]
        exact jsSetUnion_idem_right _ _
      · simp only [if_neg hl]
  · intro e p a ha ha0
    simp [mergePandemic, ha, jsOrQ, ha0]
  · intro e p sv hsv hsv0
    simp [mergePandemic, hsv, jsOrS, hsv0]
  · intro e p t ht ht0
    simp [mergePandemic, ht, jsOrQ, ht0]
  · intro e p ms hms hms0
    have hlen : 0 < (p.requiredMedicines.getD []).length := by
      rw [hms]; simpa using List.length_pos.mpr hms0
    constructor
    · simp only [mergePandemic, if_pos hlen]
      exact nodup_jsSetDedup _
    · intro m
      have hlen' : 0 < ms.length := List.length_pos.mpr hms0
      simp only [mergePandemic, hms, Option.getD_some, if_pos hlen', jsSetUnion,
        mem_jsSetDedup, List.mem_append]
  · intro now region s analysis store created p hex
    obtain ⟨e, he⟩ := Option.isSome_iff_exists.mp hex
    constructor
    · intro st cr hok
      simp only [applyDetected, he] at hok
      split at hok
      · rcases hok with ⟨⟩
        exact ⟨replaceFirst_length _ _ _, rfl⟩
      · cases hok
    · intro st herr
      simp only [applyDetected, he] at herr
      split at herr
      · cases herr
      · rcases herr with ⟨⟩
        rfl
  · simp +decide [analyzeAndCreatePandemicData, applyDetected, mumbaiObs,
      createFromDetected, mergePandemic, createValid, updateValid, validSeverity,
      existingMatch, jsOrQ, jsOrS, jsSetUnion, jsSetDedup, jsRound]
    try norm_num
    try simp +decide [existingMatch, mergePandemic, updateValid, validSeverity,
      replaceFirst, jsOrQ, jsOrS, jsRound]
    try norm_num

section StoreShapeLemmas

lemma fetchAndStoreWeather_store_shape (env : WeatherEnv) (now : ℚ)
    (store : List WeatherReadingT) (city : String) (force : Bool) :
    (fetchAndStoreWeather env now store city force).2.1 = store ∨
      ∃ r n, fetchAndStoreWeather env now store city force = (.ok r, store ++ [r], n) := by
  by_cases h1 : city = ""
  · simp [fetchAndStoreWeather, h1]
  · simp only [fetchAndStoreWeather, if_neg h1]
    split
    · exact Or.inl rfl
    · split
      · exact Or.inl rfl
      · split
        · split
          · exact Or.inl rfl
          · split
            · exact Or.inr ⟨_, _, rfl⟩
            · exact Or.inl rfl
        · exact Or.inl rfl

lemma fetchAndStoreWeather_error_store (env : WeatherEnv) (now : ℚ)
    (store : List WeatherReadingT) (city : String) (force : Bool) (e : String)
    (h : (fetchAndStoreWeather env now store city force).1 = .error e) :
    (fetchAndStoreWeather env now store city force).2.1 = store := by
  rcases fetchAndStoreWeather_store_shape env now store city force with hs | ⟨r, n, hs⟩
  · exact hs
  · rw [hs] at h
    cases h

lemma fetchAndStoreAqi_store_shape (env : AqiEnv) (now : ℚ)
    (store : List AqiReadingT) (city state country : String) (force : Bool) :
    (fetchAndStoreAqi env now store city state country force).2.1 = store ∨
      ∃ r n, fetchAndStoreAqi env now store city state country force =
        (.ok r, store ++ [r], n) := by
  by_cases h1 : city = ""
  · simp [fetchAndStoreAqi, h1]
  · simp only [fetchAndStoreAqi, if_neg h1]
    split
    · exact Or.inl rfl
    · split
      · exact Or.inl rfl
      · split
        · split
          · exact Or.inr ⟨_, _, rfl⟩
          · exact Or.inl rfl
        · exact Or.inl rfl

lemma fetchAndStoreAqi_error_store (env : AqiEnv) (now : ℚ)
    (store : List AqiReadingT) (city state country : String) (force : Bool)
    (e : String)
    (h : (fetchAndStoreAqi env now store city state country force).1 = .error e) :
    (fetchAndStoreAqi env now store city state country force).2.1 = store := by
  rcases fetchAndStoreAqi_store_shape env now store city state country force with
    hs | ⟨r, n, hs⟩
  · exact hs
  · rw [hs] at h
    cases h

end StoreShapeLemmas

/-- C5: when no weather reading is stored and the forced weather fetch
fails, `generatePrediction` raises the typed weather-required error and
leaves the whole database — in particular the prediction store — exactly as
it was; no weather data is fabricated or persisted. -/
theorem C5_missing_weather_is_fatal (env : PredictEnv) (db : DB)
    (city : String) (date : ℚ) (e : String)
    (hcity : city ≠ "")
    (hnolatest : getLatestWeather db.weatherStore city = none)
    (hfetch : (fetchAndStoreWeather env.weatherEnv env.now db.weatherStore
      city true).1 = .error e) :
    generatePrediction env db city date =
      (.error ("Weather data is required but could not be fetched for " ++
        city ++ ". Please check your WEATHER_API_KEY configuration."), db) := by
  have hstore := fetchAndStoreWeather_error_store env.weatherEnv env.now
    db.weatherStore city true e hfetch
  obtain ⟨n, hfull⟩ : ∃ n,
      fetchAndStoreWeather env.weatherEnv env.now db.weatherStore city true =
        (.error e, db.weatherStore, n) := by
    refine ⟨(fetchAndStoreWeather env.weatherEnv env.now db.weatherStore city true).2.2, ?_⟩
    conv_lhs => rw [show fetchAndStoreWeather env.weatherEnv env.now db.weatherStore
      city true =
      ((fetchAndStoreWeather env.weatherEnv env.now db.weatherStore city true).1,
       (fetchAndStoreWeather env.weatherEnv env.now db.weatherStore city true).2.1,
       (fetchAndStoreWeather env.weatherEnv env.now db.weatherStore city true).2.2)
      from rfl]
    rw [hfetch, hstore]
  simp only [generatePrediction, if_neg hcity, hnolatest, hfull]

/-- Witness for C5: empty stores, unconfigured weather key. -/
theorem C5_missing_weather_is_fatal_witness :
    generatePrediction
      ⟨⟨false, fun _ => ⟨false, false, none⟩⟩,
        ⟨false, ⟨false, false, none, none, none, none, none⟩⟩,
        .ok ⟨none, none, none, none⟩, [], [], none, 0⟩
      ⟨[], [], [], [], []⟩ "Delhi" 0 =
      (.error ("Weather data is required but could not be fetched for " ++
        "Delhi" ++ ". Please check your WEATHER_API_KEY configuration."),
        ⟨[], [], [], [], []⟩) :=
  C5_missing_weather_is_fatal
    ⟨⟨false, fun _ => ⟨false, false, none⟩⟩,
      ⟨false, ⟨false, false, none, none, none, none, none⟩⟩,
      .ok ⟨none, none, none, none⟩, [], [], none, 0⟩
    ⟨[], [], [], [], []⟩ "Delhi" 0
    "WEATHER_API_KEY is not configured. Please set it in your .env file."
    (by decide) rfl rfl

lemma assemblePrediction_aqiStore (env : PredictEnv) (db : DB) (city : String)
    (date : ℚ) (f : FeatureRecord) (ar : AgentResponse) :
    (assemblePrediction env db city date f ar).2.aqiStore = db.aqiStore := rfl

lemma assemblePrediction_inputSnapshot (env : PredictEnv) (db : DB)
    (city : String) (date : ℚ) (f : FeatureRecord) (ar : AgentResponse) :
    (assemblePrediction env db city date f ar).1.inputSnapshot = f := rfl

/-- C6 (counterexample to the claim as stated): with no stored AQI reading,
a failing AQI provider and an available weather reading, `generatePrediction`
succeeds using the heuristic estimate (AQI 50 at 22°), but the AQI store is
still empty afterwards — the estimated Reading is NOT persisted. -/
theorem C6_estimated_aqi_not_persisted_counterexample :
    (generatePrediction envC6 dbC6 "Delhi" 0).2.aqiStore = [] ∧
      (generatePrediction envC6 dbC6 "Delhi" 0).1.map
        (fun p => p.inputSnapshot.aqi) = .ok 50 := by
  constructor
  · rw [show (generatePrediction envC6 dbC6 "Delhi" 0).2.aqiStore =
      (assemblePrediction envC6
        { dbC6 with aqiStore := dbC6.aqiStore } "Delhi" 0
        (buildFeatures dbC6.hospitalStats "Delhi" ⟨"Delhi", 0, 22, 40, 10, 0⟩
          (estimatedAqiFromWeather "Delhi" 0 ⟨"Delhi", 0, 22, 40, 10, 0⟩))
        ⟨none, none, none, none⟩).2.aqiStore from rfl]
    rw [assemblePrediction_aqiStore]
    rfl
  · rfl

/-- C6 (amended): when no AQI reading is stored, the provider fetch fails
and a weather reading is available, `generatePrediction` surfaces no error
for the missing signal: it uses the temperature-keyed heuristic estimate
(80 / 60 / 50, pm25 = round(0.6·aqi), pm10 = round(0.8·aqi)) tagged
`source = "estimated"` in memory for this invocation, and the AQI store is
left unchanged (the estimate is not persisted). -/
theorem C6_estimated_aqi_fallback (env : PredictEnv) (db : DB) (city : String)
    (date : ℚ) (w : WeatherReadingT) (e : String) (ar : AgentResponse)
    (hcity : city ≠ "")
    (hnoaqi : getLatestAqi db.aqiStore city = none)
    (hweather : getLatestWeather db.weatherStore city = some w)
    (hfetch : (fetchAndStoreAqi env.aqiEnv env.now db.aqiStore city ""
      "India" true).1 = .error e)
    (hagent : env.agentResult = .ok ar) :
    ∃ p, (generatePrediction env db city date).1 = .ok p ∧
      (generatePrediction env db city date).2.aqiStore = db.aqiStore ∧
      p.inputSnapshot.aqi =
        (if w.temperature > 35 then 80 else if w.temperature > 25 then 60 else 50) ∧
      p.inputSnapshot.pm25 = jsRound (p.inputSnapshot.aqi * (3/5)) ∧
      p.inputSnapshot.pm10 = jsRound (p.inputSnapshot.aqi * (4/5)) ∧
      (estimatedAqiFromWeather city env.now w).source = "estimated" ∧
      p.inputSnapshot.aqi = (estimatedAqiFromWeather city env.now w).aqi := by
  have hstore := fetchAndStoreAqi_error_store env.aqiEnv env.now db.aqiStore
    city "" "India" true e hfetch
  obtain ⟨n, hfull⟩ : ∃ n,
      fetchAndStoreAqi env.aqiEnv env.now db.aqiStore city "" "India" true =
        (.error e, db.aqiStore, n) := by
    refine ⟨(fetchAndStoreAqi env.aqiEnv env.now db.aqiStore city "" "India" true).2.2, ?_⟩
    conv_lhs => rw [show fetchAndStoreAqi env.aqiEnv env.now db.aqiStore city ""
      "India" true =
      ((fetchAndStoreAqi env.aqiEnv env.now db.aqiStore city "" "India" true).1,
       (fetchAndStoreAqi env.aqiEnv env.now db.aqiStore city "" "India" true).2.1,
       (fetchAndStoreAqi env.aqiEnv env.now db.aqiStore city "" "India" true).2.2)
      from rfl]
    rw [hfetch, hstore]
  simp only [generatePrediction, if_neg hcity, hweather, hnoaqi, hfull, hagent]
  exact ⟨_, rfl, rfl, rfl, rfl, rfl, rfl, rfl⟩

/-- Witness for the amended C6 on the concrete Delhi scenario. -/
theorem C6_estimated_aqi_fallback_witness :
    ∃ p, (generatePrediction envC6 dbC6 "Delhi" 0).1 = .ok p ∧
      (generatePrediction envC6 dbC6 "Delhi" 0).2.aqiStore = dbC6.aqiStore ∧
      p.inputSnapshot.aqi =
        (if (22:ℚ) > 35 then 80 else if (22:ℚ) > 25 then 60 else 50) ∧
      p.inputSnapshot.pm25 = jsRound (p.inputSnapshot.aqi * (3/5)) ∧
      p.inputSnapshot.pm10 = jsRound (p.inputSnapshot.aqi * (4/5)) ∧
      (estimatedAqiFromWeather "Delhi" 0 ⟨"Delhi", 0, 22, 40, 10, 0⟩).source =
        "estimated" ∧
      p.inputSnapshot.aqi =
        (estimatedAqiFromWeather "Delhi" 0 ⟨"Delhi", 0, 22, 40, 10, 0⟩).aqi :=
  C6_estimated_aqi_fallback envC6 dbC6 "Delhi" 0 ⟨"Delhi", 0, 22, 40, 10, 0⟩
    "AIR_VISUAL_API_KEY is not configured. Please set it in your .env file."
    ⟨none, none, none, none⟩ (by decide) rfl rfl rfl rfl

/-- C9: a request whose location name is missing, empty, or fails the
normalise-then-validate check is answered with HTTP 400 and `success=false`
while the database is untouched and zero provider calls are made; and a
name passes validation only if, after normalisation, its trimmed form has
at least two characters, all of them letters, whitespace, hyphens,
apostrophes or periods. -/
theorem C9_invalid_location_fails_fast (env : PredictEnv) (db : DB)
    (body : PredictRequestBody) :
    (∀ c, body.city = some c → c ≠ "" →
      isValidCityName (extractCityName c) = false →
      predictHandler env db body =
        (⟨400, false, some "Invalid city name provided"⟩, db, 0)) ∧
    (body.city = none ∨ body.city = some "" →
      (predictHandler env db body).1.status = 400 ∧
        (predictHandler env db body).1.success = false ∧
        (predictHandler env db body).2 = (db, 0)) ∧
    (∀ o : Option String, isValidCityName o = true ↔
      ∃ t, o = some t ∧ t ≠ "" ∧ 2 ≤ (jsTrim t).length ∧
        ∀ ch ∈ (jsTrim t).toList, jsCityChar ch = true) := by
  refine ⟨?_, ?_, ?_⟩
  · intro c hc hne hinv
    simp [predictHandler, hc, hne, hinv]
  · rintro (hc | hc) <;> simp [predictHandler, hc]
  · intro o
    match o with
    | none => simp [isValidCityName]
    | some t =>
      by_cases ht : t = ""
      · simp [isValidCityName, ht]
      · simp [isValidCityName, ht, isValidCityNameStr, List.all_eq_true]

/-- Witness for C9: the name "X1" (a digit is not an allowed character) is
rejected with a 400 before any provider call. -/
theorem C9_invalid_location_fails_fast_witness :
    predictHandler envC6 dbC6 ⟨some "X1", none, none, none⟩ =
      (⟨400, false, some "Invalid city name provided"⟩, dbC6, 0) :=
  (C9_invalid_location_fails_fast envC6 dbC6 ⟨some "X1", none, none, none⟩).1
    "X1" rfl (by decide) (by decide)

/-- Witness for C4: merging an 80-case Influenza observation into an
existing 50-case record yields the maximum of the two counts. -/
theorem C4_outbreak_merge_dedup_witness :
    (mergePandemic ⟨"Mumbai", 0, "Influenza", 50, 10, 10, 0, "moderate", 2, [], [],
        ["Oseltamivir"], "", "gemini-ai"⟩ (mumbaiObs 80)).activeCases =
      max 50 (jsRound 80) :=
  C4_outbreak_merge_dedup.2.1
    ⟨"Mumbai", 0, "Influenza", 50, 10, 10, 0, "moderate", 2, [], [],
      ["Oseltamivir"], "", "gemini-ai"⟩ (mumbaiObs 80) 80 rfl (by norm_num)

lemma foldl_add_activeCases (l : List PandemicRecord) :
    ∀ init : ℚ, l.foldl (fun sum p => sum + p.activeCases) init =
      init + (l.map (·.activeCases)).sum := by
  induction l with
  | nil => intro init; simp
  | cons r rest ih => intro init; simp [ih, add_assoc]

/-- C7: the estimated affected count equals
`baseline × (1 + score/100 × 0.5) + 0.3 × totalActiveOutbreakCases` with the
code's rounding of each term, floored at the unmodified baseline, where the
total sums active cases over the region's active outbreak records of the
trailing 7 days. -/
theorem C7_estimated_patient_count (store : List PandemicRecord)
    (region : String) (now base s : ℚ) :
    calculatePatientCountFromPandemics store region now base s =
      max base (jsRound (base * (1 + s / 100 * (1/2))) +
        jsRound ((3/10) *
          ((getActivePandemics store region now 7).map (·.activeCases)).sum)) ∧
    base ≤ calculatePatientCountFromPandemics store region now base s := by
  constructor
  · simp only [calculatePatientCountFromPandemics, getTotalActiveCases]
    rw [foldl_add_activeCases, zero_add, mul_comm _ ((3:ℚ)/10)]
  · exact le_max_left _ _

/-- C10: every record built by the reconciler's create path has
non-negative active and new case counts and a transmission rate within
`[0, 10]`, for every shape of reasoning-service response; and a risk score
strictly below 40 leaves the outbreak store untouched and creates
nothing. -/
theorem C10_reconciler_record_invariants :
    (∀ (region : String) (now s : ℚ) (analysis : Option String)
      (p : DetectedPandemic),
      0 ≤ (createFromDetected region now s analysis p).activeCases ∧
      0 ≤ (createFromDetected region now s analysis p).newCases ∧
      0 ≤ (createFromDetected region now s analysis p).transmissionRate ∧
      (createFromDetected region now s analysis p).transmissionRate ≤ 10) ∧
    (∀ (gemini : Option GeminiAnalysis) (now : ℚ) (store : List PandemicRecord)
      (region : String) (s : ℚ), s < 40 →
      analyzeAndCreatePandemicData gemini now store region s = ([], store)) := by
  constructor
  · intro region now s analysis p
    refine ⟨le_max_left _ _, le_max_left _ _, ?_, ?_⟩
    · exact le_min (by norm_num) (le_max_left _ _)
    · exact min_le_left _ _
  · intro gemini now store region s hs
    simp [analyzeAndCreatePandemicData, hs]

/-- Witness for C10 at score 20 (below the threshold 40): reconciliation
is a no-op. -/
theorem C10_reconciler_record_invariants_witness :
    analyzeAndCreatePandemicData none 0 [] "Delhi" 20 = ([], []) :=
  C10_reconciler_record_invariants.2 none 0 [] "Delhi" 20 (by norm_num)

/-- Witness for C8 at a concrete 429 failure sequence with zero jitter and
the default options. -/
theorem C8_retry_delay_computation_witness :
    (withRetry (α := Nat) (fun _ => .error ⟨some 429, none, none⟩)
        (fun _ => 0) {}).sleeps.head? =
      some (nextRetryDelay ⟨some 429, none, none⟩ 2000 0 60000) :=
  (C8_retry_delay_computation (α := Nat) (fun _ => .error ⟨some 429, none, none⟩)
    (fun _ => 0) {} ⟨some 429, none, none⟩
    (fun _ => ⟨by norm_num, by norm_num⟩) rfl rfl (by decide)).1

end MediOps
